import Mathlib

/-!
Verification of the background-scan module `src/main/client/scan.c` of the
Aerospike Python client.

The file shallowly embeds the two entry points of the module,
`AerospikeClient_ScanApply_Invoke` (submission of a background scan that
applies a UDF to every record) and `AerospikeClient_ScanInfo` (polling the
status of such a job), together with the goto-based cleanup discipline of
the C code.

External collaborators (policy validation/conversion, list conversion, the
store client primitives, the Python allocator) are modelled by explicit
outcome records (`ScanApplyEnv`, `ScanInfoEnv`): each field is the result
the collaborator delivers when the embedded control flow reaches the
corresponding call site.  Every invocation of a collaborator and every
resource acquisition/release is logged in an event trace, so that claims
about "never invoked", "invoked before", and "destroyed exactly once"
become statements about the trace.

Machine integers are modelled as `Nat`/`Int` with explicit reduction
modulo `2 ^ w` where a C width conversion happens: in particular the
`uint64_t` job id is returned through `PyLong_FromLong` (a signed `long`),
embedded by `uint64ToLong` as a two's-complement reinterpretation.
-/

namespace Aerospike

/-- Embeds `as_error`: the error record (code plus message) threaded through
every call. -/
structure AsError where
  code : Int
  message : String
deriving Repr, DecidableEq

/-- Embeds the `AEROSPIKE_OK` status code. -/
def AEROSPIKE_OK : Int := 0

/-- Embeds the `AEROSPIKE_ERR_PARAM` status code (invalid parameter). -/
def AEROSPIKE_ERR_PARAM : Int := -2

/-- Embeds `as_error_init(&err)`: code `AEROSPIKE_OK`, empty message. -/
def as_error_init : AsError := ⟨AEROSPIKE_OK, ""⟩

/-- Embeds `as_error_update(&err, code, msg)`. -/
def as_error_update (code : Int) (msg : String) : AsError := ⟨code, msg⟩

/-- Shapes of Python objects that the module distinguishes.  A list carries
only its length; the elements are opaque to scan.c (they are handed to the
external converter `pyobject_to_list`). -/
inductive PyObject where
  | pyList (len : Nat)
  | pyDict
  | pyLong (v : Int)
  | pyStr (s : String)
deriving Repr, DecidableEq

/-- Embeds `PyList_Check`. -/
def PyList_Check : PyObject → Bool
  | .pyList _ => true
  | _ => false

/-- Observable events of one call: invocations of external collaborators,
resource acquisitions and releases, and the two store primitives.
`scanDestroy b` records `as_scan_destroy` on a scan whose `apply_each`
directive holds the attached UDF argument list exactly when `b = true`
(destroying the scan releases that attached list as well). -/
inductive Event where
  | scanInit
  | validatePolicyScan
  | convertPolicyScan
  | setScanOptions
  | convertArgs
  | applyEach
  | submitBackground
  | listDestroy
  | scanDestroy (attachedArgs : Bool)
  | dictNew
  | convertPolicyInfo
  | queryScanInfo
deriving Repr, DecidableEq

/-- Exceptions visible at the Python boundary: a `TypeError` raised by
argument parsing, or the module's own exception carrying an `as_error`
record (raised via `error_to_pyobject` / `PyErr_SetObject`). -/
inductive PyException where
  | typeError
  | exc (e : AsError)
deriving Repr, DecidableEq

/-- Outcomes delivered by the external collaborators of
`AerospikeClient_ScanApply_Invoke` at their call sites.  An `AsError` field
is the state of `err` right after the corresponding call returns
(`as_error_init` when the collaborator succeeds). -/
structure ScanApplyEnv where
  validatePolicyScan : AsError
  convertPolicyScan : AsError
  setScanOptions : AsError
  convertArgs : AsError
  applyEachOk : Bool
  backgroundErr : AsError
  backgroundId : Nat
deriving Repr, DecidableEq

/-- Result of one submission call at the Python boundary: `ret` is the
returned Python integer (`none` models a NULL return), `raised` the
exception set, `trace` the events of the call. -/
structure PyResult where
  ret : Option Int
  raised : Option PyException
  trace : List Event
deriving Repr, DecidableEq

/-- Embeds the C conversion of the `uint64_t` scan id to the `long`
parameter of `PyLong_FromLong`: two's-complement reinterpretation of the
low 64 bits (LP64 target). -/
def uint64ToLong (n : Nat) : Int :=
  let m : Nat := n % 2 ^ 64
  if m < 2 ^ 63 then (m : Int) else (m : Int) - 2 ^ 64

/-- Embeds the `CLEANUP` label of `AerospikeClient_ScanApply_Invoke`
(scan.c lines 121-139): destroy the local argument list if still owned,
destroy the scan if it was initialized, then either raise the recorded
error (returning NULL) or return `PyLong_FromLong(scan_id)`. -/
def scanApplyCleanup (arglist scanInited attached : Bool) (err : AsError)
    (scanId : Nat) (tr : List Event) : PyResult :=
  ⟨if err.code ≠ AEROSPIKE_OK then none else some (uint64ToLong scanId),
   if err.code ≠ AEROSPIKE_OK then some (PyException.exc err) else none,
   tr ++ (if arglist then [Event.listDestroy] else [])
      ++ (if scanInited then [Event.scanDestroy attached] else [])⟩

/-- Embeds scan.c lines 108-119: `pyobject_to_list` (on failure the output
list stays NULL), `as_scan_apply_each` (on success ownership of the list is
attached to the scan), `aerospike_scan_background`, then the unconditional
`arglist = NULL` and the fall-through to `CLEANUP`.  The scan is already
initialized when this point is reached. -/
def scanApplyTail (env : ScanApplyEnv) (tr : List Event) : PyResult :=
  if env.convertArgs.code ≠ AEROSPIKE_OK then
    scanApplyCleanup false true false env.convertArgs 0 (tr ++ [Event.convertArgs])
  else if env.applyEachOk = false then
    scanApplyCleanup true true false
      (as_error_update AEROSPIKE_ERR_PARAM "Unable to apply UDF on the scan") 0
      (tr ++ [Event.convertArgs, Event.applyEach])
  else
    scanApplyCleanup false true true env.backgroundErr (env.backgroundId % 2 ^ 64)
      (tr ++ [Event.convertArgs, Event.applyEach, Event.submitBackground])

/-- Embeds scan.c lines 100-106: `set_scan_options` when options were
supplied, followed by the error check (which in the C sits outside the
`if (py_options)` block).  `err` is `AEROSPIKE_OK` on entry. -/
def scanApplyMid (py_options : Option PyObject) (env : ScanApplyEnv)
    (tr : List Event) : PyResult :=
  if py_options.isSome = true ∧ env.setScanOptions.code ≠ AEROSPIKE_OK then
    scanApplyCleanup false true false env.setScanOptions 0
      (tr ++ [Event.setScanOptions])
  else
    scanApplyTail env
      (tr ++ (if py_options.isSome then [Event.setScanOptions] else []))

/-- Embeds `AerospikeClient_ScanApply_Invoke` (scan.c lines 51-140).
`clientOk` models `self && self->as`; the four name parameters are the C
`char *` arguments with `none` for NULL (note the C checks only for NULL,
so an empty string passes the check). -/
def AerospikeClient_ScanApply_Invoke (clientOk : Bool)
    (namespace_p set_p module_p function_p : Option String)
    (py_args : PyObject) (py_policy py_options : Option PyObject)
    (env : ScanApplyEnv) : PyResult :=
  if clientOk = false then
    scanApplyCleanup false false false
      (as_error_update AEROSPIKE_ERR_PARAM "Invalid aerospike object") 0 []
  else if namespace_p = none ∨ set_p = none ∨ module_p = none ∨ function_p = none then
    scanApplyCleanup false false false
      (as_error_update AEROSPIKE_ERR_PARAM "Parameter should not be null") 0 []
  else if PyList_Check py_args = false then
    scanApplyCleanup false false false
      (as_error_update AEROSPIKE_ERR_PARAM "Arguments should be a list") 0 []
  else
    match py_policy with
    | some _ =>
        if env.validatePolicyScan.code ≠ AEROSPIKE_OK then
          scanApplyCleanup false true false env.validatePolicyScan 0
            [Event.scanInit, Event.validatePolicyScan]
        else if env.convertPolicyScan.code ≠ AEROSPIKE_OK then
          scanApplyCleanup false true false env.convertPolicyScan 0
            [Event.scanInit, Event.validatePolicyScan, Event.convertPolicyScan]
        else
          scanApplyMid py_options env
            [Event.scanInit, Event.validatePolicyScan, Event.convertPolicyScan]
    | none => scanApplyMid py_options env [Event.scanInit]

/-- Arguments of `AerospikeClient_ScanApply` as delivered by
`PyArg_ParseTupleAndKeywords` with format `"ssssO|OO"`. -/
structure ParsedApplyArgs where
  namespace_p : Option String
  set_p : Option String
  module_p : Option String
  function_p : Option String
  py_args : PyObject
  py_policy : Option PyObject
  py_options : Option PyObject
deriving Repr, DecidableEq

/-- Embeds `AerospikeClient_ScanApply` (scan.c lines 154-174): argument
parsing, then the invoke helper.  A parse failure returns NULL with a
`TypeError` already set by the runtime. -/
def AerospikeClient_ScanApply (clientOk : Bool)
    (parsedArgs : Option ParsedApplyArgs) (env : ScanApplyEnv) : PyResult :=
  match parsedArgs with
  | none => ⟨none, some PyException.typeError, []⟩
  | some a =>
      AerospikeClient_ScanApply_Invoke clientOk a.namespace_p a.set_p
        a.module_p a.function_p a.py_args a.py_policy a.py_options env

/-- Embeds the `as_scan_info` struct filled by `aerospike_scan_info`:
`progress_pct` and `records_scanned` are `uint32_t`, `status` is the
store's `as_scan_status` enumeration value. -/
structure RawScanInfo where
  progress_pct : Nat
  records_scanned : Nat
  status : Nat
deriving Repr, DecidableEq

/-- Outcomes delivered by the external collaborators of
`AerospikeClient_ScanInfo` at their call sites.  `dictAllocOk` is whether
`PyDict_New()` succeeds; `querySnapshot` is the struct the store fills when
`queryErr` is `AEROSPIKE_OK`. -/
structure ScanInfoEnv where
  dictAllocOk : Bool
  validatePolicyScan : AsError
  convertPolicyInfo : AsError
  queryErr : AsError
  querySnapshot : RawScanInfo
deriving Repr, DecidableEq

/-- Result of one status call at the Python boundary: `ret` is the returned
dictionary as an association list (`none` models a NULL return). -/
structure InfoResult where
  ret : Option (List (String × Int))
  raised : Option PyException
  trace : List Event
deriving Repr, DecidableEq

/-- Embeds the `CLEANUP` label of `AerospikeClient_ScanInfo` (scan.c lines
249-259): raise the recorded error and return NULL, or return `retObj`. -/
def infoCleanup (retObj : Option (List (String × Int))) (err : AsError)
    (tr : List Event) : InfoResult :=
  ⟨if err.code ≠ AEROSPIKE_OK then none else retObj,
   if err.code ≠ AEROSPIKE_OK then some (PyException.exc err) else none,
   tr⟩

/-- Embeds `AerospikeClient_ScanInfo` (scan.c lines 189-261).
`retObj = PyDict_New()` is executed before argument parsing; `parsedArgs`
is the `(scanid, policy)` pair delivered by parsing format `"l|O"`.  When a
policy is supplied it is validated with `validate_policy_scan`; the info
policy conversion `pyobject_to_policy_info` runs unconditionally.  On a
successful query the dictionary is populated only if its allocation
succeeded (`if (retObj)`), with `status` offset by the `AS_SCAN_STATUS`
constant; the `uint32_t` struct fields pass through `PyLong_FromLong`
verbatim on the LP64 target. -/
def AerospikeClient_ScanInfo (AS_SCAN_STATUS : Int) (clientOk : Bool)
    (parsedArgs : Option (Int × Option PyObject)) (env : ScanInfoEnv) : InfoResult :=
  match parsedArgs with
  | none => ⟨none, some PyException.typeError, [Event.dictNew]⟩
  | some (_, py_policy) =>
    if clientOk = false then
      infoCleanup none
        (as_error_update AEROSPIKE_ERR_PARAM "Invalid aerospike object")
        [Event.dictNew]
    else if py_policy.isSome = true ∧ env.validatePolicyScan.code ≠ AEROSPIKE_OK then
      infoCleanup none env.validatePolicyScan
        [Event.dictNew, Event.validatePolicyScan]
    else if env.convertPolicyInfo.code ≠ AEROSPIKE_OK then
      infoCleanup none env.convertPolicyInfo
        ([Event.dictNew]
          ++ (if py_policy.isSome then [Event.validatePolicyScan] else [])
          ++ [Event.convertPolicyInfo])
    else if env.queryErr.code ≠ AEROSPIKE_OK then
      infoCleanup none env.queryErr
        ([Event.dictNew]
          ++ (if py_policy.isSome then [Event.validatePolicyScan] else [])
          ++ [Event.convertPolicyInfo, Event.queryScanInfo])
    else
      infoCleanup
        (if env.dictAllocOk then
          some [("progress_pct", ((env.querySnapshot.progress_pct % 2 ^ 32 : Nat) : Int)),
                ("records_scanned", ((env.querySnapshot.records_scanned % 2 ^ 32 : Nat) : Int)),
                ("status", ((env.querySnapshot.status % 2 ^ 32 : Nat) : Int) + AS_SCAN_STATUS)]
         else none)
        as_error_init
        ([Event.dictNew]
          ++ (if py_policy.isSome then [Event.validatePolicyScan] else [])
          ++ [Event.convertPolicyInfo, Event.queryScanInfo])

/-- Number of release events for the scan descriptor in a trace. -/
def scanDestroys (tr : List Event) : Nat :=
  tr.count (Event.scanDestroy true) + tr.count (Event.scanDestroy false)

/-- Number of release events for the UDF argument list in a trace:
`as_list_destroy` on the local reference, plus `as_scan_destroy` of a scan
holding the attached list. -/
def arglistDestroys (tr : List Event) : Nat :=
  tr.count Event.listDestroy + tr.count (Event.scanDestroy true)

/-- Conjunction of the conditions under which `AerospikeClient_ScanInfo`
reaches the dictionary-population step with `err` still `AEROSPIKE_OK`:
parsing, client check, optional policy validation, info-policy conversion
and the store query all succeed. -/
def infoPipelineOk (clientOk : Bool)
    (parsedArgs : Option (Int × Option PyObject)) (env : ScanInfoEnv) : Bool :=
  match parsedArgs with
  | none => false
  | some (_, py_policy) =>
      clientOk
      && (!py_policy.isSome || env.validatePolicyScan.code == AEROSPIKE_OK)
      && (env.convertPolicyInfo.code == AEROSPIKE_OK)
      && (env.queryErr.code == AEROSPIKE_OK)

/-- Environment in which every external collaborator succeeds and the store
issues job id 7. -/
def applyEnvAllOk : ScanApplyEnv :=
  ⟨as_error_init, as_error_init, as_error_init, as_error_init, true, as_error_init, 7⟩

/-- Environment in which every collaborator succeeds and the store issues
the job id `2 ^ 63` (a valid `uint64_t` value). -/
def applyEnvBigId : ScanApplyEnv :=
  ⟨as_error_init, as_error_init, as_error_init, as_error_init, true, as_error_init, 2 ^ 63⟩

/-- Status-call environment in which every step succeeds and the store
reports 55 percent progress, 1000 records scanned, raw status 2. -/
def infoEnvAllOk : ScanInfoEnv :=
  ⟨true, as_error_init, as_error_init, as_error_init, ⟨55, 1000, 2⟩⟩

/-- Status-call environment identical to `infoEnvAllOk` except that the
`PyDict_New` allocation fails. -/
def infoEnvDictFail : ScanInfoEnv :=
  ⟨false, as_error_init, as_error_init, as_error_init, ⟨55, 1000, 2⟩⟩

/-- Submission environment in which the scan-policy validation fails and
every other collaborator succeeds. -/
def applyEnvValidateFail : ScanApplyEnv :=
  ⟨⟨AEROSPIKE_ERR_PARAM, "policy invalid"⟩, as_error_init, as_error_init,
   as_error_init, true, as_error_init, 7⟩

/-- Every result assembled by the submission cleanup label returns NULL
exactly when it raises: the same `err.code` test selects both fields. -/
theorem scanApplyCleanup_ret_none_iff (al si att : Bool) (err : AsError)
    (id : Nat) (tr : List Event) :
    ((scanApplyCleanup al si att err id tr).ret = none
      ↔ ((scanApplyCleanup al si att err id tr).raised).isSome = true) := by
  unfold scanApplyCleanup
  by_cases h : err.code ≠ AEROSPIKE_OK <;> simp [h]

/-- Every result of the conversion/attach/submission tail returns NULL
exactly when it raises. -/
theorem scanApplyTail_ret_none_iff (env : ScanApplyEnv) (tr : List Event) :
    ((scanApplyTail env tr).ret = none
      ↔ ((scanApplyTail env tr).raised).isSome = true) := by
  unfold scanApplyTail
  split_ifs <;> apply scanApplyCleanup_ret_none_iff

/-- Every result of the options step and what follows it returns NULL
exactly when it raises. -/
theorem scanApplyMid_ret_none_iff (opts : Option PyObject) (env : ScanApplyEnv)
    (tr : List Event) :
    ((scanApplyMid opts env tr).ret = none
      ↔ ((scanApplyMid opts env tr).raised).isSome = true) := by
  unfold scanApplyMid
  split_ifs <;>
    first
      | apply scanApplyCleanup_ret_none_iff
      | apply scanApplyTail_ret_none_iff

/-- The invoke helper of the submission path returns NULL exactly when it
raises an exception. -/
theorem scanApplyInvoke_ret_none_iff (clientOk : Bool)
    (ns st md fn : Option String) (py_args : PyObject)
    (pol opts : Option PyObject) (env : ScanApplyEnv) :
    ((AerospikeClient_ScanApply_Invoke clientOk ns st md fn py_args pol opts env).ret = none
      ↔ ((AerospikeClient_ScanApply_Invoke clientOk ns st md fn py_args pol opts env).raised).isSome
          = true) := by
  rcases pol with _ | p <;>
    simp only [AerospikeClient_ScanApply_Invoke] <;>
    split_ifs <;>
    first
      | apply scanApplyCleanup_ret_none_iff
      | apply scanApplyMid_ret_none_iff

/-- C1: for every `scanInfo` call in which the store query succeeds (and
the result dictionary was allocated), the returned snapshot is a mapping
with exactly the three fields `progress_pct`, `records_scanned` and
`status`, where `progress_pct` and `records_scanned` are the store's raw
values verbatim and `status` is the raw status code plus the fixed
`AS_SCAN_STATUS` additive offset constant. -/
theorem scanInfo_success_snapshot (AS_SCAN_STATUS : Int) (jobId : Int)
    (py_policy : Option PyObject) (env : ScanInfoEnv)
    (hd : env.dictAllocOk = true)
    (hv : py_policy.isSome = true → env.validatePolicyScan.code = AEROSPIKE_OK)
    (hc : env.convertPolicyInfo.code = AEROSPIKE_OK)
    (hq : env.queryErr.code = AEROSPIKE_OK)
    (hp : env.querySnapshot.progress_pct < 2 ^ 32)
    (hr : env.querySnapshot.records_scanned < 2 ^ 32)
    (hs : env.querySnapshot.status < 2 ^ 32) :
    (AerospikeClient_ScanInfo AS_SCAN_STATUS true (some (jobId, py_policy)) env).ret
      = some [("progress_pct", (env.querySnapshot.progress_pct : Int)),
              ("records_scanned", (env.querySnapshot.records_scanned : Int)),
              ("status", (env.querySnapshot.status : Int) + AS_SCAN_STATUS)]
    ∧ (AerospikeClient_ScanInfo AS_SCAN_STATUS true (some (jobId, py_policy)) env).raised
        = none := by
  by_cases hpol : py_policy.isSome = true
  · have hv' := hv hpol
    refine ⟨?_, ?_⟩ <;>
      (simp [AerospikeClient_ScanInfo, infoCleanup, hd, hc, hq, hv', hpol,
             as_error_init, AEROSPIKE_OK] <;> omega)
  · refine ⟨?_, ?_⟩ <;>
      (simp [AerospikeClient_ScanInfo, infoCleanup, hd, hc, hq, hpol,
             as_error_init, AEROSPIKE_OK] <;> omega)

/-- C1 witness: concrete instance with offset 100 and raw snapshot
(55, 1000, 2), yielding public status 102. -/
theorem scanInfo_success_snapshot_witness :
    (AerospikeClient_ScanInfo 100 true (some (42, none)) infoEnvAllOk).ret
      = some [("progress_pct", 55), ("records_scanned", 1000), ("status", 102)]
    ∧ (AerospikeClient_ScanInfo 100 true (some (42, none)) infoEnvAllOk).raised = none := by
  have h := scanInfo_success_snapshot 100 42 none infoEnvAllOk rfl
    (fun _ => rfl) rfl rfl (by decide) (by decide) (by decide)
  exact ⟨h.1.trans (by decide), h.2⟩

/-- C2 counterexample: with an empty (non-null) namespace string and every
collaborator succeeding, the call does not fail with any error -- it
reaches the background-submission primitive and succeeds, because the C
precondition compares the name parameters against NULL only, never against
emptiness. -/
theorem scanApply_empty_namespace_not_rejected :
    (AerospikeClient_ScanApply_Invoke true (some "") (some "demo") (some "mod") (some "fn")
        (PyObject.pyList 0) none none applyEnvAllOk).raised = none
    ∧ Event.submitBackground ∈ (AerospikeClient_ScanApply_Invoke true (some "") (some "demo")
        (some "mod") (some "fn") (PyObject.pyList 0) none none applyEnvAllOk).trace := by
  decide

/-- C2 amended: for every `scanApply` invocation in which any of namespace,
set, module or function is absent (a NULL pointer), the call fails with the
InvalidParam error record carrying the message "Parameter should not be
null", returns no value, and runs no further step at all (in particular the
background-submission primitive is never invoked); empty non-null strings
are not rejected by this check. -/
theorem scanApply_null_param_rejected (ns st md fn : Option String)
    (py_args : PyObject) (pol opts : Option PyObject) (env : ScanApplyEnv)
    (h : ns = none ∨ st = none ∨ md = none ∨ fn = none) :
    (AerospikeClient_ScanApply_Invoke true ns st md fn py_args pol opts env).raised
      = some (PyException.exc ⟨AEROSPIKE_ERR_PARAM, "Parameter should not be null"⟩)
    ∧ (AerospikeClient_ScanApply_Invoke true ns st md fn py_args pol opts env).ret = none
    ∧ (AerospikeClient_ScanApply_Invoke true ns st md fn py_args pol opts env).trace = [] := by
  refine ⟨?_, ?_, ?_⟩ <;>
    simp [AerospikeClient_ScanApply_Invoke, scanApplyCleanup, as_error_update,
          AEROSPIKE_ERR_PARAM, AEROSPIKE_OK, h]

/-- C2 amended witness: NULL namespace is rejected with the exact message. -/
theorem scanApply_null_param_rejected_witness :
    (AerospikeClient_ScanApply_Invoke true none (some "demo") (some "mod") (some "fn")
        (PyObject.pyList 0) none none applyEnvAllOk).raised
      = some (PyException.exc ⟨AEROSPIKE_ERR_PARAM, "Parameter should not be null"⟩) :=
  (scanApply_null_param_rejected none (some "demo") (some "mod") (some "fn")
    (PyObject.pyList 0) none none applyEnvAllOk (Or.inl rfl)).1

/-- C3 counterexample: when the `PyDict_New` allocation fails while
parsing, the client check, policy conversion and the store query all
succeed, `scanInfo` returns NULL with no exception recorded -- neither a
value nor an error. -/
theorem scanInfo_dict_alloc_failure_neither :
    (AerospikeClient_ScanInfo 4 true (some (42, none)) infoEnvDictFail).ret = none
    ∧ (AerospikeClient_ScanInfo 4 true (some (42, none)) infoEnvDictFail).raised = none := by
  decide

/-- C8 counterexample: for a store-issued job id of `2 ^ 63` (a valid
`uint64_t` value) and an otherwise fully valid submission, the value handed
to the caller is the negative two's-complement reinterpretation
`-(2 ^ 63)`, which is neither non-negative nor equal to the store-issued
identifier: the id is returned through `PyLong_FromLong`, a signed `long`
conversion. -/
theorem scanApply_large_id_counterexample :
    (AerospikeClient_ScanApply_Invoke true (some "test") (some "demo") (some "mod") (some "fn")
        (PyObject.pyList 0) none none applyEnvBigId).ret = some (-(2 ^ 63 : Int))
    ∧ (-(2 ^ 63 : Int)) < 0
    ∧ (-(2 ^ 63 : Int)) ≠ ((2 ^ 63 : Nat) : Int) := by
  refine ⟨by decide, by decide, by decide⟩

/-- C8 amended: for every valid input (client valid, all four names
present, args the empty list, conversion/attach succeeding and the store
accepting the submission), `scanApply` succeeds, and the returned integer
is the store-issued unsigned identifier reinterpreted as a signed 64-bit
`long`; whenever the identifier is below `2 ^ 63` the returned value is
non-negative and equals the store-issued identifier verbatim. -/
theorem scanApply_valid_submission_id (ns st md fn : String) (env : ScanApplyEnv)
    (hca : env.convertArgs.code = AEROSPIKE_OK) (hae : env.applyEachOk = true)
    (hbg : env.backgroundErr.code = AEROSPIKE_OK) (hid : env.backgroundId < 2 ^ 63) :
    (AerospikeClient_ScanApply_Invoke true (some ns) (some st) (some md) (some fn)
        (PyObject.pyList 0) none none env).ret = some ((env.backgroundId : Nat) : Int)
    ∧ (0 : Int) ≤ ((env.backgroundId : Nat) : Int)
    ∧ (AerospikeClient_ScanApply_Invoke true (some ns) (some st) (some md) (some fn)
        (PyObject.pyList 0) none none env).raised = none := by
  have h1 : env.backgroundId % 18446744073709551616 = env.backgroundId := by omega
  have h2 : env.backgroundId < 9223372036854775808 := by omega
  refine ⟨?_, Int.natCast_nonneg _, ?_⟩ <;>
    simp [AerospikeClient_ScanApply_Invoke, scanApplyMid, scanApplyTail, scanApplyCleanup,
          uint64ToLong, PyList_Check, hca, hae, hbg, h1, h2,
          as_error_init, AEROSPIKE_OK]

/-- C8 amended witness: store id 7 comes back as the integer 7. -/
theorem scanApply_valid_submission_id_witness :
    (AerospikeClient_ScanApply_Invoke true (some "test") (some "demo") (some "mod") (some "fn")
        (PyObject.pyList 0) none none applyEnvAllOk).ret = some 7 :=
  (scanApply_valid_submission_id "test" "demo" "mod" "fn" applyEnvAllOk
    rfl rfl rfl (by decide)).1

/-- C9: the status call is stateless and deterministic given the store's
response.  The C function keeps no static or module-level state (every
variable in `AerospikeClient_ScanInfo` is local), so the embedding is a
pure function of the call arguments and the collaborator outcomes; two
calls with the same jobId and policy for which the store delivers the same
raw snapshot and the auxiliary steps behave identically return identical
results. -/
theorem scanInfo_deterministic (off : Int) (clientOk : Bool) (jobId : Int)
    (pol : Option PyObject) (env1 env2 : ScanInfoEnv)
    (hd : env1.dictAllocOk = env2.dictAllocOk)
    (hv : env1.validatePolicyScan = env2.validatePolicyScan)
    (hc : env1.convertPolicyInfo = env2.convertPolicyInfo)
    (hq : env1.queryErr = env2.queryErr)
    (hs : env1.querySnapshot = env2.querySnapshot) :
    AerospikeClient_ScanInfo off clientOk (some (jobId, pol)) env1
      = AerospikeClient_ScanInfo off clientOk (some (jobId, pol)) env2 := by
  have h : env1 = env2 := by
    cases env1
    cases env2
    simp_all
  rw [h]

/-- C9 witness: two identical status calls agree. -/
theorem scanInfo_deterministic_witness :
    AerospikeClient_ScanInfo 100 true (some (42, none)) infoEnvAllOk
      = AerospikeClient_ScanInfo 100 true (some (42, none)) infoEnvAllOk :=
  scanInfo_deterministic 100 true 42 none infoEnvAllOk infoEnvAllOk rfl rfl rfl rfl rfl

/-- C3 amended: every `scanApply` call returns exactly one of a value or an
error; every `scanInfo` call never returns both a snapshot and an error,
and whenever the result-dictionary allocation succeeds it returns exactly
one of a snapshot or an error.  The single remaining path (allocation
failure with every other step succeeding) returns neither. -/
theorem scanApply_scanInfo_result_xor_error :
    (∀ (clientOk : Bool) (parsedArgs : Option ParsedApplyArgs) (env : ScanApplyEnv),
       ((AerospikeClient_ScanApply clientOk parsedArgs env).ret = none
         ↔ ((AerospikeClient_ScanApply clientOk parsedArgs env).raised).isSome = true))
    ∧ (∀ (off : Int) (clientOk : Bool) (parsedArgs : Option (Int × Option PyObject))
         (env : ScanInfoEnv),
       ¬(((AerospikeClient_ScanInfo off clientOk parsedArgs env).ret).isSome = true
          ∧ ((AerospikeClient_ScanInfo off clientOk parsedArgs env).raised).isSome = true))
    ∧ (∀ (off : Int) (clientOk : Bool) (parsedArgs : Option (Int × Option PyObject))
         (env : ScanInfoEnv), env.dictAllocOk = true →
       ((AerospikeClient_ScanInfo off clientOk parsedArgs env).ret = none
         ↔ ((AerospikeClient_ScanInfo off clientOk parsedArgs env).raised).isSome = true)) := by
  refine ⟨?_, ?_, ?_⟩
  · intro clientOk parsedArgs env
    rcases parsedArgs with _ | a
    · simp [AerospikeClient_ScanApply]
    · exact scanApplyInvoke_ret_none_iff clientOk a.namespace_p a.set_p a.module_p
        a.function_p a.py_args a.py_policy a.py_options env
  · intro off clientOk parsedArgs env
    rcases parsedArgs with _ | ⟨j, p⟩
    · simp [AerospikeClient_ScanInfo]
    · simp only [AerospikeClient_ScanInfo]
      split_ifs <;> simp_all [infoCleanup, as_error_init, as_error_update,
        AEROSPIKE_OK, AEROSPIKE_ERR_PARAM]
  · intro off clientOk parsedArgs env hd
    rcases parsedArgs with _ | ⟨j, p⟩
    · simp [AerospikeClient_ScanInfo]
    · simp only [AerospikeClient_ScanInfo]
      split_ifs <;> simp_all [infoCleanup, as_error_init, as_error_update,
        AEROSPIKE_OK, AEROSPIKE_ERR_PARAM]

/-- C3 amended witness: a concrete fully-successful status call returns a
snapshot and raises nothing. -/
theorem scanApply_scanInfo_result_xor_error_witness :
    ((AerospikeClient_ScanInfo 4 true (some (42, none)) infoEnvAllOk).ret = none
      ↔ ((AerospikeClient_ScanInfo 4 true (some (42, none)) infoEnvAllOk).raised).isSome
          = true) :=
  scanApply_scanInfo_result_xor_error.2.2 4 true (some (42, none)) infoEnvAllOk rfl

/-- C4: on every exit path of the submission call, the scan descriptor is
released exactly once if and only if its initialization happened (tracked
by the is-initialized flag, and it never happens twice), and the converted
UDF argument list is released exactly once exactly when the conversion
produced it -- by the cleanup path when not yet transferred, or through the
descriptor after a successful attach, never both, because the local
reference is cleared on transfer. -/
theorem scanApply_resource_discipline (clientOk : Bool)
    (ns st md fn : Option String) (py_args : PyObject)
    (pol opts : Option PyObject) (env : ScanApplyEnv) :
    scanDestroys (AerospikeClient_ScanApply_Invoke clientOk ns st md fn py_args pol opts env).trace
      = (if Event.scanInit
            ∈ (AerospikeClient_ScanApply_Invoke clientOk ns st md fn py_args pol opts env).trace
         then 1 else 0)
    ∧ ((AerospikeClient_ScanApply_Invoke clientOk ns st md fn py_args pol opts env).trace).count
        Event.scanInit ≤ 1
    ∧ arglistDestroys
        (AerospikeClient_ScanApply_Invoke clientOk ns st md fn py_args pol opts env).trace
      = (if Event.convertArgs
            ∈ (AerospikeClient_ScanApply_Invoke clientOk ns st md fn py_args pol opts env).trace
           ∧ env.convertArgs.code = AEROSPIKE_OK
         then 1 else 0) := by
  by_cases h1 : clientOk = false
  · simp [AerospikeClient_ScanApply_Invoke, scanApplyCleanup, h1,
          scanDestroys, arglistDestroys]
  by_cases h2 : ns = none ∨ st = none ∨ md = none ∨ fn = none
  · simp [AerospikeClient_ScanApply_Invoke, scanApplyCleanup, h1, h2,
          scanDestroys, arglistDestroys]
  by_cases h3 : PyList_Check py_args = false
  · simp [AerospikeClient_ScanApply_Invoke, scanApplyCleanup, h1, h2, h3,
          scanDestroys, arglistDestroys]
  rcases pol with _ | p
  · by_cases h9 : opts.isSome = true <;>
      by_cases h6 : env.setScanOptions.code ≠ AEROSPIKE_OK <;>
      by_cases h7 : env.convertArgs.code ≠ AEROSPIKE_OK <;>
      by_cases h8 : env.applyEachOk = false <;>
      simp [AerospikeClient_ScanApply_Invoke, scanApplyMid, scanApplyTail,
            scanApplyCleanup, h1, h2, h3, h6, h7, h8, h9,
            scanDestroys, arglistDestroys, List.count_cons] <;>
      simp_all
  by_cases h4 : env.validatePolicyScan.code ≠ AEROSPIKE_OK
  · simp [AerospikeClient_ScanApply_Invoke, scanApplyCleanup, h1, h2, h3, h4,
          scanDestroys, arglistDestroys, List.count_cons]
  by_cases h5 : env.convertPolicyScan.code ≠ AEROSPIKE_OK
  · simp [AerospikeClient_ScanApply_Invoke, scanApplyCleanup, h1, h2, h3, h4, h5,
          scanDestroys, arglistDestroys, List.count_cons]
  by_cases h9 : opts.isSome = true <;>
    by_cases h6 : env.setScanOptions.code ≠ AEROSPIKE_OK <;>
    by_cases h7 : env.convertArgs.code ≠ AEROSPIKE_OK <;>
    by_cases h8 : env.applyEachOk = false <;>
    simp [AerospikeClient_ScanApply_Invoke, scanApplyMid, scanApplyTail,
          scanApplyCleanup, h1, h2, h3, h4, h5, h6, h7, h8, h9,
          scanDestroys, arglistDestroys, List.count_cons] <;>
    simp_all

/-- C5: in both operations a supplied policy is first validated and then
converted, in that order (whenever the conversion step appears in the
trace, the validation step immediately precedes it), and a validation
failure aborts the call before the conversion and before any network call
to the store. -/
theorem policy_validate_then_convert :
    (∀ (clientOk : Bool) (ns st md fn : Option String) (py_args : PyObject)
       (p : PyObject) (opts : Option PyObject) (env : ScanApplyEnv),
       (Event.convertPolicyScan
           ∈ (AerospikeClient_ScanApply_Invoke clientOk ns st md fn py_args (some p) opts env).trace →
         ∃ s, (AerospikeClient_ScanApply_Invoke clientOk ns st md fn py_args (some p) opts env).trace
           = Event.scanInit :: Event.validatePolicyScan :: Event.convertPolicyScan :: s)
       ∧ (env.validatePolicyScan.code ≠ AEROSPIKE_OK →
           Event.convertPolicyScan
             ∉ (AerospikeClient_ScanApply_Invoke clientOk ns st md fn py_args (some p) opts env).trace
           ∧ Event.submitBackground
             ∉ (AerospikeClient_ScanApply_Invoke clientOk ns st md fn py_args (some p) opts env).trace))
    ∧ (∀ (off : Int) (clientOk : Bool) (jobId : Int) (p : PyObject) (env : ScanInfoEnv),
       (Event.convertPolicyInfo
           ∈ (AerospikeClient_ScanInfo off clientOk (some (jobId, some p)) env).trace →
         ∃ s, (AerospikeClient_ScanInfo off clientOk (some (jobId, some p)) env).trace
           = Event.dictNew :: Event.validatePolicyScan :: Event.convertPolicyInfo :: s)
       ∧ (env.validatePolicyScan.code ≠ AEROSPIKE_OK →
           Event.convertPolicyInfo
             ∉ (AerospikeClient_ScanInfo off clientOk (some (jobId, some p)) env).trace
           ∧ Event.queryScanInfo
             ∉ (AerospikeClient_ScanInfo off clientOk (some (jobId, some p)) env).trace)) := by
  constructor
  · intro clientOk ns st md fn py_args p opts env
    constructor
    · by_cases h1 : clientOk = false
      · simp [AerospikeClient_ScanApply_Invoke, scanApplyCleanup, h1]
      by_cases h2 : ns = none ∨ st = none ∨ md = none ∨ fn = none
      · simp [AerospikeClient_ScanApply_Invoke, scanApplyCleanup, h1, h2]
      by_cases h3 : PyList_Check py_args = false
      · simp [AerospikeClient_ScanApply_Invoke, scanApplyCleanup, h1, h2, h3]
      by_cases h4 : env.validatePolicyScan.code ≠ AEROSPIKE_OK
      · simp [AerospikeClient_ScanApply_Invoke, scanApplyCleanup, h1, h2, h3, h4]
      by_cases h5 : env.convertPolicyScan.code ≠ AEROSPIKE_OK
      · intro hm
        refine ⟨[Event.scanDestroy false], ?_⟩
        simp [AerospikeClient_ScanApply_Invoke, scanApplyCleanup, h1, h2, h3, h4, h5]
      intro hm
      simp only [AerospikeClient_ScanApply_Invoke, if_neg h1, if_neg h2, if_neg h3,
                 if_neg h4, if_neg h5]
      unfold scanApplyMid scanApplyTail scanApplyCleanup
      split_ifs <;> simp
    · intro hv
      by_cases h1 : clientOk = false
      · simp [AerospikeClient_ScanApply_Invoke, scanApplyCleanup, h1]
      by_cases h2 : ns = none ∨ st = none ∨ md = none ∨ fn = none
      · simp [AerospikeClient_ScanApply_Invoke, scanApplyCleanup, h1, h2]
      by_cases h3 : PyList_Check py_args = false
      · simp [AerospikeClient_ScanApply_Invoke, scanApplyCleanup, h1, h2, h3]
      simp [AerospikeClient_ScanApply_Invoke, scanApplyCleanup, h1, h2, h3, hv]
  · intro off clientOk jobId p env
    constructor
    · by_cases h1 : clientOk = false
      · simp [AerospikeClient_ScanInfo, infoCleanup, h1]
      by_cases h2 : env.validatePolicyScan.code ≠ AEROSPIKE_OK
      · simp [AerospikeClient_ScanInfo, infoCleanup, h1, h2]
      by_cases h3 : env.convertPolicyInfo.code ≠ AEROSPIKE_OK
      · intro hm
        refine ⟨[], ?_⟩
        simp [AerospikeClient_ScanInfo, infoCleanup, h1, h2, h3]
      by_cases h4 : env.queryErr.code ≠ AEROSPIKE_OK
      · intro hm
        refine ⟨[Event.queryScanInfo], ?_⟩
        simp [AerospikeClient_ScanInfo, infoCleanup, h1, h2, h3, h4]
      intro hm
      refine ⟨[Event.queryScanInfo], ?_⟩
      simp [AerospikeClient_ScanInfo, infoCleanup, h1, h2, h3, h4]
    · intro hv
      by_cases h1 : clientOk = false
      · simp [AerospikeClient_ScanInfo, infoCleanup, h1]
      simp [AerospikeClient_ScanInfo, infoCleanup, h1, hv]

/-- C5 witness: with a failing policy validation on a concrete submission,
the conversion and the background submission never run. -/
theorem policy_validate_then_convert_witness :
    Event.convertPolicyScan
      ∉ (AerospikeClient_ScanApply_Invoke true (some "t") (some "d") (some "m") (some "f")
          (PyObject.pyList 0) (some PyObject.pyDict) none applyEnvValidateFail).trace
    ∧ Event.submitBackground
      ∉ (AerospikeClient_ScanApply_Invoke true (some "t") (some "d") (some "m") (some "f")
          (PyObject.pyList 0) (some PyObject.pyDict) none applyEnvValidateFail).trace :=
  (policy_validate_then_convert.1 true (some "t") (some "d") (some "m") (some "f")
    (PyObject.pyList 0) PyObject.pyDict none applyEnvValidateFail).2 (by decide)

/-- C6: within a single submission call the preconditions are checked in
order (client validity, then non-null names, then args-is-a-list) and the
first violation wins: the error record of the first failing check is the
one reported, unchanged by any later step, and no further build step runs
(the trace is empty -- control goes directly to cleanup). -/
theorem scanApply_first_failure_wins (clientOk : Bool) (ns st md fn : Option String)
    (py_args : PyObject) (pol opts : Option PyObject) (env : ScanApplyEnv) :
    (clientOk = false →
       AerospikeClient_ScanApply_Invoke clientOk ns st md fn py_args pol opts env
         = ⟨none, some (PyException.exc ⟨AEROSPIKE_ERR_PARAM, "Invalid aerospike object"⟩), []⟩)
    ∧ (clientOk = true → (ns = none ∨ st = none ∨ md = none ∨ fn = none) →
       AerospikeClient_ScanApply_Invoke clientOk ns st md fn py_args pol opts env
         = ⟨none, some (PyException.exc ⟨AEROSPIKE_ERR_PARAM, "Parameter should not be null"⟩), []⟩)
    ∧ (clientOk = true → ¬(ns = none ∨ st = none ∨ md = none ∨ fn = none) →
        PyList_Check py_args = false →
       AerospikeClient_ScanApply_Invoke clientOk ns st md fn py_args pol opts env
         = ⟨none, some (PyException.exc ⟨AEROSPIKE_ERR_PARAM, "Arguments should be a list"⟩), []⟩) := by
  refine ⟨fun h1 => ?_, fun h1 h2 => ?_, fun h1 h2 h3 => ?_⟩ <;>
    simp_all [AerospikeClient_ScanApply_Invoke, scanApplyCleanup, as_error_update,
              AEROSPIKE_ERR_PARAM, AEROSPIKE_OK]

/-- C6 witness: an invalid client with simultaneously-null parameters and
non-list args reports the client error, the first violation. -/
theorem scanApply_first_failure_wins_witness :
    AerospikeClient_ScanApply_Invoke false none none none none PyObject.pyDict none none
        applyEnvAllOk
      = ⟨none, some (PyException.exc ⟨AEROSPIKE_ERR_PARAM, "Invalid aerospike object"⟩), []⟩ :=
  (scanApply_first_failure_wins false none none none none PyObject.pyDict none none
    applyEnvAllOk).1 rfl

/-- C7: whenever the args argument is not a Python list, the argument-list
conversion step never runs, and (when the earlier checks pass) the call
fails with the InvalidParam record carrying the message "Arguments should
be a list", with no build step executed at all. -/
theorem scanApply_args_not_list_rejected (clientOk : Bool) (ns st md fn : Option String)
    (py_args : PyObject) (pol opts : Option PyObject) (env : ScanApplyEnv)
    (hargs : PyList_Check py_args = false) :
    Event.convertArgs
      ∉ (AerospikeClient_ScanApply_Invoke clientOk ns st md fn py_args pol opts env).trace
    ∧ (clientOk = true → ¬(ns = none ∨ st = none ∨ md = none ∨ fn = none) →
        (AerospikeClient_ScanApply_Invoke clientOk ns st md fn py_args pol opts env).raised
          = some (PyException.exc ⟨AEROSPIKE_ERR_PARAM, "Arguments should be a list"⟩)
        ∧ (AerospikeClient_ScanApply_Invoke clientOk ns st md fn py_args pol opts env).trace
            = []) := by
  refine ⟨?_, fun h1 h2 => ?_⟩
  · rcases pol with _ | p <;>
      simp only [AerospikeClient_ScanApply_Invoke, scanApplyMid, scanApplyTail,
                 scanApplyCleanup] <;>
      split_ifs <;> simp_all
  · refine ⟨?_, ?_⟩ <;>
      simp_all [AerospikeClient_ScanApply_Invoke, scanApplyCleanup, as_error_update,
                AEROSPIKE_ERR_PARAM, AEROSPIKE_OK]

/-- C7 witness: a dict passed as args on an otherwise valid call is
rejected with the exact message before any conversion. -/
theorem scanApply_args_not_list_rejected_witness :
    Event.convertArgs
      ∉ (AerospikeClient_ScanApply_Invoke true (some "t") (some "d") (some "m") (some "f")
          PyObject.pyDict none none applyEnvAllOk).trace
    ∧ (AerospikeClient_ScanApply_Invoke true (some "t") (some "d") (some "m") (some "f")
          PyObject.pyDict none none applyEnvAllOk).raised
        = some (PyException.exc ⟨AEROSPIKE_ERR_PARAM, "Arguments should be a list"⟩) := by
  have h := scanApply_args_not_list_rejected true (some "t") (some "d") (some "m") (some "f")
    PyObject.pyDict none none applyEnvAllOk rfl
  exact ⟨h.1, (h.2 rfl (by decide)).1⟩

/-- C10: in `scanInfo` the result dictionary is allocated first (the
allocation event heads every trace, before any validation or the store
query), and the call yields neither a snapshot nor an error exactly when
that single allocation fails while parsing, the client check, policy
validation/conversion and the store query all succeed; `scanApply` has no
such path -- it never yields neither a value nor an error. -/
theorem scanInfo_silent_path_characterization :
    (∀ (off : Int) (clientOk : Bool) (parsedArgs : Option (Int × Option PyObject))
       (env : ScanInfoEnv),
       ((AerospikeClient_ScanInfo off clientOk parsedArgs env).trace).head?
           = some Event.dictNew
       ∧ (((AerospikeClient_ScanInfo off clientOk parsedArgs env).ret = none
            ∧ (AerospikeClient_ScanInfo off clientOk parsedArgs env).raised = none)
          ↔ (env.dictAllocOk = false ∧ infoPipelineOk clientOk parsedArgs env = true)))
    ∧ (∀ (clientOk : Bool) (parsedArgs : Option ParsedApplyArgs) (env : ScanApplyEnv),
       ¬((AerospikeClient_ScanApply clientOk parsedArgs env).ret = none
          ∧ (AerospikeClient_ScanApply clientOk parsedArgs env).raised = none)) := by
  constructor
  · intro off clientOk parsedArgs env
    rcases parsedArgs with _ | ⟨j, p⟩
    · simp [AerospikeClient_ScanInfo, infoPipelineOk]
    · rcases p with _ | q <;>
        (constructor
         · simp only [AerospikeClient_ScanInfo]
           split_ifs <;> simp_all [infoCleanup]
         · simp only [AerospikeClient_ScanInfo, infoPipelineOk]
           split_ifs <;> simp_all [infoCleanup, as_error_init, as_error_update,
             AEROSPIKE_OK, AEROSPIKE_ERR_PARAM])
  · intro clientOk parsedArgs env h
    rcases parsedArgs with _ | a
    · simp [AerospikeClient_ScanApply] at h
    · have hidx := scanApplyInvoke_ret_none_iff clientOk a.namespace_p a.set_p a.module_p
        a.function_p a.py_args a.py_policy a.py_options env
      simp only [AerospikeClient_ScanApply] at h
      rw [h.2] at hidx
      simp at hidx
      exact hidx h.1

/-- C10 witness: the concrete allocation-failure environment returns
neither a snapshot nor an error. -/
theorem scanInfo_silent_path_characterization_witness :
    ((AerospikeClient_ScanInfo 4 true (some (42, none)) infoEnvDictFail).trace).head?
        = some Event.dictNew
    ∧ (((AerospikeClient_ScanInfo 4 true (some (42, none)) infoEnvDictFail).ret = none
         ∧ (AerospikeClient_ScanInfo 4 true (some (42, none)) infoEnvDictFail).raised = none)
       ↔ (infoEnvDictFail.dictAllocOk = false
           ∧ infoPipelineOk true (some (42, none)) infoEnvDictFail = true)) :=
  scanInfo_silent_path_characterization.1 4 true (some (42, none)) infoEnvDictFail

end Aerospike
